import Mathlib

/-!
Verification development for the serket session engine.

The definitions below are a shallow embedding of the Python sources
(`src/core/structure.py`, `src/core/context.py`, `src/core/result.py`,
`src/core/renderer.py`).  Python dicts are modelled as insertion-ordered
association lists with unique keys, the file system as an association list
from path strings to file contents, exceptions as an `Option PyErr` field on
operation outcomes, and the external collaborators (HTTP transport, HTML
parser, interactive input) as oracle fields of an `Env` record.
-/

namespace Serket

instance {ε α : Type} [DecidableEq ε] [DecidableEq α] : DecidableEq (Except ε α) := fun x y =>
  match x, y with
  | .ok a, .ok b =>
    if h : a = b then isTrue (by rw [h]) else isFalse (by intro hc; cases hc; exact h rfl)
  | .error a, .error b =>
    if h : a = b then isTrue (by rw [h]) else isFalse (by intro hc; cases hc; exact h rfl)
  | .ok _, .error _ => isFalse (by intro hc; cases hc)
  | .error _, .ok _ => isFalse (by intro hc; cases hc)

/-! ### Python dict model (insertion-ordered, unique keys)

`dict[k] = v` keeps the position of an existing key and appends a fresh one;
`dict.update` folds `dictSet`; `del d[k]` removes the entry. -/

def dictGet {κ α : Type} [BEq κ] (d : List (κ × α)) (k : κ) : Option α :=
  (d.find? (fun e => e.fst == k)).map (fun e => e.snd)

def dictHas {κ α : Type} [BEq κ] (d : List (κ × α)) (k : κ) : Bool :=
  d.any (fun e => e.fst == k)

def dictSet {κ α : Type} [BEq κ] (d : List (κ × α)) (k : κ) (v : α) : List (κ × α) :=
  if d.any (fun e => e.fst == k) then
    d.map (fun e => if e.fst == k then (k, v) else e)
  else d ++ [(k, v)]

def dictUpdate {κ α : Type} [BEq κ] (d src : List (κ × α)) : List (κ × α) :=
  src.foldl (fun acc e => dictSet acc e.fst e.snd) d

def dictRemove {κ α : Type} [BEq κ] (d : List (κ × α)) (k : κ) : List (κ × α) :=
  d.filter (fun e => !(e.fst == k))

/-! ### `src/core/result.py` -/

/-- The `Result` hierarchy of `result.py`: `Ok(value)` and `Error(error)`. -/
inductive Result (S E : Type) where
  | Ok (value : S)
  | Error (error : E)
deriving DecidableEq

/-! ### Data model: `Document`, `Tab`, `CookieJar`, `Profile` (`structure.py`) -/

/-- External parser's view of a parsed document (BeautifulSoup handle):
the block-level paragraph texts in document order and the optional title
tag text.  The parser itself is an external collaborator. -/
structure Document where
  paragraphs : List String
  titleTag : Option String
deriving DecidableEq

/-- Models `BeautifulSoup()` with no arguments: an empty document. -/
def emptyDoc : Document := ⟨[], none⟩

/-- Models `Tab` dataclass: a name and a document handle. -/
structure Tab where
  name : String
  document : Document
deriving DecidableEq

/-- Models `Tab.title` property: the title tag's text, or `""` when the document
has no title. -/
def Tab.title (t : Tab) : String :=
  match t.document.titleTag with
  | none => ""
  | some s => s

/-- Opaque cookie jar contents (`RequestsCookieJar`). -/
structure CookieJar where
  entries : List (String × String)
deriving DecidableEq

/-- A freshly constructed `RequestsCookieJar()`. -/
def emptyJar : CookieJar := ⟨[]⟩

/-- Models `DEFAULT_SETTINGS` from `structure.py`. -/
def DEFAULT_SETTINGS : List (String × String) :=
  [("user-agent", "Mozilla/5.0 (X11; Ubuntu; NoPointer) Gecko/20100101 Serket/0.1")]

/-- Models `Profile` dataclass state: name, settings dict, proxies dict, session
cookie jar, and the tab registry (int -> Tab dict). -/
structure Profile where
  name : String
  settings : List (String × String)
  proxies : List (String × String)
  cookies : CookieJar
  tabs : List (Nat × Tab)
deriving DecidableEq

/-- Python exception values that the embedded code can raise. -/
inductive PyErr where
  | runtimeError (msg : String)
  | keyError
  | unpicklingError
  | jsonDecodeError
  | valueError
  | netError (msg : String)
deriving DecidableEq

/-- The seeding loop of `Profile.__post_init__` and of
`_load_profile_settings`'s missing-file branch: every `DEFAULT_SETTINGS`
key absent from the dict is filled in with its default. -/
def seedDefaults (s : List (String × String)) : List (String × String) :=
  DEFAULT_SETTINGS.foldl
    (fun acc e => if dictHas acc e.fst then acc else dictSet acc e.fst e.snd) s

/-- Models `Profile(name)` as called by `Context.get_profile`: `__post_init__`
raises `RuntimeError` on an empty name, otherwise seeds the default
settings into the empty settings dict. -/
def mkProfile (name : String) : Except PyErr Profile :=
  if name = "" then .error (.runtimeError "tried to create a profile with no name")
  else .ok { name := name, settings := seedDefaults [], proxies := [],
             cookies := emptyJar, tabs := [] }

/-- Models `Profile.get_setting`: `Ok` with the value when the key is present,
`Error` otherwise. -/
def Profile.getSetting (p : Profile) (name : String) : Result String String :=
  match dictGet p.settings name with
  | some v => .Ok v
  | none => .Error s!"no such setting '{name}'"

/-- Models `Profile.set_setting` (the returned `Ok(message)` is ignored by its
only caller, `Context.set_setting`, which prints its own message). -/
def Profile.setSetting (p : Profile) (n v : String) : Profile :=
  { p with settings := dictSet p.settings n v }

/-- Models `Profile.clear_cookies`: replaces the jar with a fresh one. -/
def Profile.clearCookies (p : Profile) : Profile :=
  { p with cookies := emptyJar }

/-! ### Tab registry (`add_tab`, `rem_tab`, `select_tab`) -/

def hasKey (tabs : List (Nat × Tab)) (n : Nat) : Bool :=
  tabs.any (fun e => e.fst == n)

/-- The `while n in self._tabs: n += 1` loop of `add_tab`, with explicit
fuel.  The loop terminates because the registry is finite; fuel
`tabs.length + 1` suffices since the registry cannot contain all of
`0..tabs.length`. -/
def findFree (tabs : List (Nat × Tab)) : Nat → Nat → Nat
  | 0, n => n
  | fuel + 1, n => if hasKey tabs n then findFree tabs fuel (n + 1) else n

/-- The handle `add_tab` assigns: the result of the while loop started at 0. -/
def freshHandle (tabs : List (Nat × Tab)) : Nat :=
  findFree tabs (tabs.length + 1) 0

/-- Models `Profile.add_tab`: assign the first free handle and insert (a fresh
dict key is appended in insertion order). -/
def Profile.addTab (p : Profile) (t : Tab) : Profile :=
  { p with tabs := p.tabs ++ [(freshHandle p.tabs, t)] }

/-- Models `Profile.rem_tab`: `self._tabs[key]` raises `KeyError` when the key is
absent; otherwise the entry is deleted. -/
def Profile.remTab (p : Profile) (k : Nat) : Except PyErr Profile :=
  if hasKey p.tabs k then
    .ok { p with tabs := p.tabs.filter (fun e => !(e.fst == k)) }
  else .error .keyError

/-- Models `str.lower()` on the characters of a string (`Char.toLower` covers the
ASCII range, which is what the command grammar produces). -/
def lowerChars (s : String) : List Char := s.data.map Char.toLower

/-- Models `text.lower().startswith(sel.lower())`. -/
def startsLikeCI (sel text : String) : Bool :=
  (lowerChars sel).isPrefixOf (lowerChars text)

/-- The per-tab condition of `select_tab`: name prefix-match or title
prefix-match, case-insensitively. -/
def matchesSelection (sel : String) (t : Tab) : Bool :=
  startsLikeCI sel t.name || startsLikeCI sel t.title

/-- Models `self._tabs.values()` in insertion order. -/
def tabList (p : Profile) : List Tab := p.tabs.map Prod.snd

/-- Models `Profile.select_tab`: first tab (in insertion order) whose name or
title starts with the selection, case-insensitively; `None` when the loop
falls through. -/
def Profile.selectTab (p : Profile) (sel : String) : Option Tab :=
  (tabList p).find? (matchesSelection sel)

/-! ### Python `int(...)` parsing (used by `change_tab`)

Models CPython `int(str)` for the whitespace-free strings the `tab`
command grammar (`\S*` capture) can produce: optional sign, then a digit
group in which single underscores may separate digits. -/

def digitVal (c : Char) : Option Nat :=
  if c.isDigit then some (c.toNat - 48) else none

def digitsGo (acc : Nat) : List Char → Option Nat
  | [] => some acc
  | ['_'] => none
  | '_' :: c :: rest =>
    match digitVal c with
    | some d => digitsGo (acc * 10 + d) rest
    | none => none
  | c :: rest =>
    match digitVal c with
    | some d => digitsGo (acc * 10 + d) rest
    | none => none

def parseDigits : List Char → Option Nat
  | [] => none
  | c :: rest =>
    match digitVal c with
    | some d => digitsGo d rest
    | none => none

def pyParseInt (s : String) : Option Int :=
  match s.data with
  | '-' :: rest => (parseDigits rest).map (fun n => -(n : Int))
  | '+' :: rest => (parseDigits rest).map (fun n => (n : Int))
  | l => (parseDigits l).map (fun n => (n : Int))

/-! ### File system and persistence (`structure.py`)

The storage directories (`COOKIES`, `PROFILES`, `PROXIES`, `DOWNLOADS`) are
modelled as path segments of a flat path-to-content map. -/

/-- What an on-disk artifact can hold once read back: a JSON string-to-string
object (settings and proxies artifacts are both of this shape), a pickled
cookie jar, raw bytes, or content that the relevant reader cannot parse. -/
inductive FileContent where
  | jsonDict (kvs : List (String × String))
  | cookiesData (jar : CookieJar)
  | blob (bytes : List Nat)
  | corrupt
deriving DecidableEq

abbrev FS := List (String × FileContent)

def fsGet (fs : FS) (path : String) : Option FileContent := dictGet fs path

def fsSet (fs : FS) (path : String) (c : FileContent) : FS := dictSet fs path c

/-- Models `Path.unlink` guarded by `Path.exists`: removing an absent path is a
no-op (the source checks existence before unlinking). -/
def fsRemove (fs : FS) (path : String) : FS := dictRemove fs path

def cookiesPath (n : String) : String := s!"cookies/{n}.cookies"
def profilePath (n : String) : String := s!"profiles/{n}.profile"
def proxiesPath (n : String) : String := s!"proxies/{n}.proxies"
def downloadsPath (fname : String) : String := s!"downloads/{fname}"

/-- Models `Profile._load_cookies`: a missing file seeds a fresh jar; a present
file is `pickle.load`ed, which raises on content that is not a pickled
jar (there is no `try`/`except` around it). -/
def loadCookies (fs : FS) (p : Profile) : Except PyErr Profile :=
  match fsGet fs (cookiesPath p.name) with
  | some (.cookiesData jar) => .ok { p with cookies := jar }
  | some _ => .error .unpicklingError
  | none => .ok { p with cookies := emptyJar }

/-- Models `Profile._load_profile_settings`: a missing file re-seeds the defaults;
a present file is `json.load`ed into `settings.update(...)`, and a parse
failure raises (no `try`/`except`). -/
def loadSettings (fs : FS) (p : Profile) : Except PyErr Profile :=
  match fsGet fs (profilePath p.name) with
  | some (.jsonDict kvs) => .ok { p with settings := dictUpdate p.settings kvs }
  | some _ => .error .jsonDecodeError
  | none => .ok { p with settings := seedDefaults p.settings }

/-- Models `Profile._load_proxies`: a missing file loads nothing; a present file
is `json.load`ed into `proxies.update(...)`, and a parse failure raises. -/
def loadProxies (fs : FS) (p : Profile) : Except PyErr Profile :=
  match fsGet fs (proxiesPath p.name) with
  | some (.jsonDict kvs) => .ok { p with proxies := dictUpdate p.proxies kvs }
  | some _ => .error .jsonDecodeError
  | none => .ok p

/-- Models `Profile.load_from_disk`: cookies, then settings, then proxies; an
exception from any loader propagates and aborts the rest. -/
def loadFromDisk (fs : FS) (p : Profile) : Except PyErr Profile :=
  match loadCookies fs p with
  | .error e => .error e
  | .ok p1 =>
    match loadSettings fs p1 with
    | .error e => .error e
    | .ok p2 => loadProxies fs p2

/-- Models `Profile.save_to_disk` end state: the three artifacts are written in
place (cookies, settings, proxies).  The intermediate on-disk states of
each individual write are modelled separately by `directWriteStates`. -/
def saveToDisk (fs : FS) (p : Profile) : FS :=
  let f1 := fsSet fs (cookiesPath p.name) (.cookiesData p.cookies)
  let f2 := fsSet f1 (profilePath p.name) (.jsonDict p.settings)
  fsSet f2 (proxiesPath p.name) (.jsonDict p.proxies)

/-- Models `Profile.delete_from_disk`: unlinks the cookies artifact and the
settings artifact when they exist.  The proxies artifact is not touched. -/
def deleteFromDisk (fs : FS) (p : Profile) : FS :=
  fsRemove (fsRemove fs (cookiesPath p.name)) (profilePath p.name)

/-- The on-disk states that `with open(path, "w"/"wb") as file: dump(data,
file)` exposes to a crash: opening with a write mode truncates the target
in place (the just-truncated or partially-written file is no longer a
readable artifact), then the serialized data lands.  No temporary file or
atomic rename is involved. -/
def directWriteStates (fs : FS) (path : String) (data : FileContent) : List FS :=
  [fsSet fs path .corrupt, fsSet fs path data]

/-- The write trace of `Profile._save_cookies`. -/
def saveCookiesStates (fs : FS) (p : Profile) : List FS :=
  directWriteStates fs (cookiesPath p.name) (.cookiesData p.cookies)

/-- The write trace of `Profile._save_profile_settings`. -/
def saveSettingsStates (fs : FS) (p : Profile) : List FS :=
  directWriteStates fs (profilePath p.name) (.jsonDict p.settings)

/-- The write trace of `Profile._save_proxies`. -/
def saveProxiesStates (fs : FS) (p : Profile) : List FS :=
  directWriteStates fs (proxiesPath p.name) (.jsonDict p.proxies)

/-- A write trace is crash-safe for an artifact when every intermediate
on-disk state still shows either the prior artifact or the new one. -/
def crashSafeTrace (states : List FS) (path : String)
    (old : Option FileContent) (new : FileContent) : Prop :=
  ∀ s ∈ states, fsGet s path = old ∨ fsGet s path = some new

/-! ### Renderer (`renderer.py`) and console output -/

/-- Models `renderer.render`: the paragraph texts whose length exceeds 50, in
document order, each becoming one visual block. -/
def render (d : Document) : List String :=
  d.paragraphs.filter (fun t => 50 < t.length)

/-- Console output events (`Context.info` / `success` / `error`,
`Console.print`, and the structured listings). -/
inductive Output where
  | info (s : String)
  | success (s : String)
  | error (s : String)
  | print (s : String)
  | renderBlocks (blocks : List String)
  | renderTabs (panels : List (String × List (Nat × String × String)))
  | renderProfiles (panels : List (String × List (String × String) × Nat))
deriving DecidableEq

/-- Models `Context.display_tab`: render the tab's document. -/
def displayTab (t : Tab) : List Output := [.renderBlocks (render t.document)]

/-! ### Session context (`context.py`) -/

/-- Models `Context` state: the loaded-profile dict, the active profile (always a
reference to an entry of the dict, so modelled by name), and the active
tab. -/
structure Ctx where
  profiles : List (String × Profile)
  active : Option String
  tab : Option Tab
deriving DecidableEq

def activeProfile (ctx : Ctx) : Option Profile :=
  match ctx.active with
  | none => none
  | some n => dictGet ctx.profiles n

/-- An operation outcome: the new session state, the new disk state, the
console output emitted, and—when the Python code would raise—the exception
escaping the operation (effects performed before the raise are kept). -/
structure Outcome where
  ctx : Ctx
  fs : FS
  out : List Output
  exn : Option PyErr
deriving DecidableEq

/-! ### HTTP boundary -/

/-- A header slot holds whatever Python object was assigned to it: a
string, or (as `Context.get` does) the un-unwrapped `Result` returned by
`get_setting`. -/
inductive HeaderVal where
  | str (s : String)
  | result (r : Result String String)
deriving DecidableEq

/-- The observable request `profile.session.get(url, stream=True)` sends:
the URL, the session's `User-Agent` header slot, and the session's proxy
mapping. -/
structure Request where
  url : String
  userAgent : HeaderVal
  proxies : List (String × String)
deriving DecidableEq

/-- External transport response: status code, headers, final URL, the body
as streamed chunks, and the result of `decode_text` on the body (an oracle
for the external charset machinery). -/
structure Response where
  statusCode : Nat
  headers : List (String × String)
  url : String
  chunks : List (List Nat)
  decoded : Option String
deriving DecidableEq

/-- External collaborators: the transport, the HTML parser, the value the
user types at the image-filename prompt, and whether/when a
`KeyboardInterrupt` arrives during the streaming loop (`some k` = the
interrupt fires after `k` chunks were written). -/
structure Env where
  net : Request → Except PyErr Response
  parse : String → Document
  userFilename : String
  cancelAfter : Option Nat

/-- The request `Context.get` issues: line 219 stores `get_setting`'s
`Result` object itself (not its unwrapped value) into
`session.headers["User-Agent"]`, and `session.proxies` is never assigned
anywhere in the sources, so the requests-default empty mapping applies. -/
def requestFor (p : Profile) (url : String) : Request :=
  ⟨url, .result (p.getSetting "user-agent"), []⟩

/-! ### `urllib.parse.urlparse` (the parts `Context.get` consults) -/

def isSchemeChar (c : Char) : Bool :=
  c.isAlpha || c.isDigit || c == '+' || c == '-' || c == '.'

def validScheme (s : List Char) : Bool :=
  match s with
  | [] => false
  | c :: rest => c.isAlpha && rest.all isSchemeChar

def hasColon (l : List Char) : Bool := l.any (fun c => c == ':')

/-- Models `urlparse(u).scheme`: the lowercased prefix before the first `:` when
it is a valid scheme, else the empty string. -/
def urlScheme (u : String) : String :=
  let l := u.data
  let pre := l.takeWhile (fun c => !(c == ':'))
  if hasColon l && validScheme pre then ⟨pre.map Char.toLower⟩ else ""

def afterScheme (u : String) : List Char :=
  let l := u.data
  let pre := l.takeWhile (fun c => !(c == ':'))
  if hasColon l && validScheme pre then l.drop (pre.length + 1) else l

/-- Models `urlparse(u).netloc`: present only after a `//`, up to the next
`/`, `?` or `#`. -/
def urlNetloc (u : String) : String :=
  match afterScheme u with
  | '/' :: '/' :: rest =>
    ⟨rest.takeWhile (fun c => !(c == '/' || c == '?' || c == '#'))⟩
  | _ => ""

/-- Models `urlparse(u).path` (query and fragment stripped). -/
def urlPathChars (u : String) : List Char :=
  match afterScheme u with
  | '/' :: '/' :: rest =>
    (rest.dropWhile (fun c => !(c == '/' || c == '?' || c == '#'))).takeWhile
      (fun c => !(c == '?' || c == '#'))
  | rest => rest.takeWhile (fun c => !(c == '?' || c == '#'))

/-- Models `Path(path).stem + Path(path).suffix` on a URL path: the final
`/`-separated component. -/
def filenameFromUrl (u : String) : String :=
  ⟨(urlPathChars u).foldl (fun acc c => if c == '/' then [] else acc ++ [c]) []⟩

/-! ### Content handlers (`Context.HTMLHandler` / `JSONHandler` / `ImageHandler`) -/

/-- Literal-match helper: `litAt lit l` returns the remainder of `l` after
the literal `lit` when `lit` leads `l`. -/
def litAt : List Char → List Char → Option (List Char)
  | [], l => some l
  | _, [] => none
  | p :: ps, c :: cs => if p == c then litAt ps cs else none

/-- Python's `needle in haystack` substring test. -/
def containsSub (needle : List Char) : List Char → Bool
  | [] => (litAt needle []).isSome
  | c :: rest => (litAt needle (c :: rest)).isSome || containsSub needle rest

def checkHTML (ct : String) : Bool := containsSub "text/html".data ct.data
def checkJSON (ct : String) : Bool := containsSub "application/json".data ct.data
def checkImage (ct : String) : Bool := containsSub "image".data ct.data

/-- Models `result.headers.get("content-type", "no content type sent")`. -/
def contentTypeOf (resp : Response) : String :=
  (dictGet resp.headers "content-type").getD "no content type sent"

/-- Models `int(result.headers.get("content-length", 0))`: 0 when the header is
absent; `int(...)` raises `ValueError` on an unparsable header value. -/
def contentLengthOf (resp : Response) : Except PyErr Int :=
  match dictGet resp.headers "content-length" with
  | none => .ok 0
  | some s =>
    match pyParseInt s with
    | some k => .ok k
    | none => .error .valueError

/-- Models `HTMLHandler._run`: decode (error out on failure), parse, store the
document on the tab, register the tab with the target profile, make that
profile and tab active, and display. -/
def htmlRun (env : Env) (ctx : Ctx) (fs : FS) (profile : Profile) (tab : Tab)
    (resp : Response) : Outcome :=
  match resp.decoded with
  | none => ⟨ctx, fs, [.error "could not decode content"], none⟩
  | some text =>
    let doc := env.parse text
    let tab2 := { tab with document := doc }
    let profile2 := profile.addTab tab2
    ⟨{ ctx with profiles := dictSet ctx.profiles profile2.name profile2,
                active := some profile2.name,
                tab := some tab2 },
     fs, displayTab tab2, none⟩

/-- Models `JSONHandler.run`: decode (error out on failure) and print verbatim. -/
def jsonRun (ctx : Ctx) (fs : FS) (resp : Response) : Outcome :=
  match resp.decoded with
  | none => ⟨ctx, fs, [.error "could not decode content"], none⟩
  | some text => ⟨ctx, fs, [.print text], none⟩

/-- Models `ImageHandler.run`: derive the filename from the URL path, let the
user override it, then stream chunks into the downloads file.  A
`KeyboardInterrupt` after `k` chunks leaves the partially-written file in
place, reports the error, and skips the success message; an uninterrupted
run writes everything and reports success. -/
def imageRun (env : Env) (ctx : Ctx) (fs : FS) (resp : Response) : Outcome :=
  match contentLengthOf resp with
  | .error e => ⟨ctx, fs, [], some e⟩
  | .ok _ =>
    let auto := filenameFromUrl resp.url
    let filename := if env.userFilename = "" then auto else env.userFilename
    let filepath := downloadsPath filename
    match env.cancelAfter with
    | some k =>
      ⟨ctx, fsSet fs filepath (.blob (resp.chunks.take k).flatten),
       [.error "Interrupted by user"], none⟩
    | none =>
      ⟨ctx, fsSet fs filepath (.blob resp.chunks.flatten),
       [.success s!"Downloaded to {filepath}"], none⟩

/-- The handler list in registration order; dispatch stops at the first
`check` that succeeds, and an unmatched content type is dropped silently. -/
def dispatchHandlers (env : Env) (ctx : Ctx) (fs : FS) (profile : Profile)
    (tab : Tab) (resp : Response) (ct : String) : Outcome :=
  if checkHTML ct then htmlRun env ctx fs profile tab resp
  else if checkJSON ct then jsonRun ctx fs resp
  else if checkImage ct then imageRun env ctx fs resp
  else ⟨ctx, fs, [], none⟩

/-! ### Context operations -/

/-- Models `Context.get_profile`: cached profiles are returned as-is; otherwise a
new profile is constructed (which raises on an empty name), loaded from
disk (which raises on a corrupt artifact), cached, and returned. -/
def getProfileOp (ctx : Ctx) (fs : FS) (name : String) :
    Except PyErr (Profile × Ctx) :=
  match dictGet ctx.profiles name with
  | some p => .ok (p, ctx)
  | none =>
    match mkProfile name with
    | .error e => .error e
    | .ok p0 =>
      match loadFromDisk fs p0 with
      | .error e => .error e
      | .ok p => .ok (p, { ctx with profiles := dictSet ctx.profiles name p })

/-- The unconditional save of the outgoing profile at the top of
`Context.change_profile`. -/
def outgoingSave (ctx : Ctx) (fs : FS) : FS :=
  match activeProfile ctx with
  | some p => saveToDisk fs p
  | none => fs

/-- Models `Context.change_profile`: save the outgoing profile (if any), then
activate `get_profile(name)`.  The active tab is not touched. -/
def changeProfileOp (ctx : Ctx) (fs : FS) (name : String) : Outcome :=
  match getProfileOp ctx (outgoingSave ctx fs) name with
  | .error e => ⟨ctx, outgoingSave ctx fs, [], some e⟩
  | .ok (_, ctx2) => ⟨{ ctx2 with active := some name }, outgoingSave ctx fs, [], none⟩

/-- The name-search branch of `Context.change_tab` (`key == -1`). -/
def byNameBranch (ctx : Ctx) (fs : FS) (p : Profile) (sel : String) : Outcome :=
  match p.selectTab sel with
  | none =>
    ⟨ctx, fs, [.error s!"no tab has a name or title starting like that: '{sel}'"], none⟩
  | some t => ⟨{ ctx with tab := some t }, fs, displayTab t, none⟩

/-- Models `key in self._tabs` and `self._tabs[key]` for an `int` key: negative
keys are never present in the `Nat`-keyed registry. -/
def tabByKey (p : Profile) (key : Int) : Option Tab :=
  if key < 0 then none else dictGet p.tabs key.toNat

/-- The direct-lookup branch of `Context.change_tab` (`key != -1`). -/
def byKeyBranch (ctx : Ctx) (fs : FS) (p : Profile) (key : Int) : Outcome :=
  match tabByKey p key with
  | some t => ⟨{ ctx with tab := some t }, fs, displayTab t, none⟩
  | none => ⟨ctx, fs, [.error s!"no tab has this key: {key}"], none⟩

/-- Models `Context.change_tab`: requires an active profile; `int(selection)`
failing is mapped to the sentinel `-1`, and the `-1` check routes to the
name-search branch. -/
def changeTabOp (ctx : Ctx) (fs : FS) (sel : String) : Outcome :=
  match activeProfile ctx with
  | none => ⟨ctx, fs, [.error "No profile currently loaded"], none⟩
  | some p =>
    let key : Int := (pyParseInt sel).getD (-1)
    if key = -1 then byNameBranch ctx fs p sel
    else byKeyBranch ctx fs p key

/-- Models `Context.set_setting`: requires an active profile. -/
def setSettingOp (ctx : Ctx) (fs : FS) (n v : String) : Outcome :=
  match activeProfile ctx with
  | none => ⟨ctx, fs, [.error "No profile currently loaded"], none⟩
  | some p =>
    ⟨{ ctx with profiles := dictSet ctx.profiles p.name (p.setSetting n v) },
     fs, [.success "done"], none⟩

/-- Models `Context.clear_cookies`: requires an active profile. -/
def clearCookiesOp (ctx : Ctx) (fs : FS) : Outcome :=
  match activeProfile ctx with
  | none => ⟨ctx, fs, [.error "No profile currently loaded"], none⟩
  | some p =>
    ⟨{ ctx with profiles := dictSet ctx.profiles p.name p.clearCookies },
     fs, [.success "done"], none⟩

/-- Models `Context.delete_profile`: requires an active profile; deletes its disk
artifacts, evicts it from the store, and unsets the active profile.  The
active tab is not touched. -/
def deleteProfileOp (ctx : Ctx) (fs : FS) : Outcome :=
  match activeProfile ctx with
  | none => ⟨ctx, fs, [.error "No profile currently loaded"], none⟩
  | some p =>
    ⟨{ ctx with profiles := dictRemove ctx.profiles p.name, active := none },
     deleteFromDisk fs p, [], none⟩

/-- The fetch tail of `Context.get` once the target profile and tab name
are resolved: inject the header, issue the streaming GET (a transport
failure propagates—there is no `try`), report status/type/size, and hand
an HTTP 200 response to the handler pipeline. -/
def getFetch (env : Env) (ctx : Ctx) (fs : FS) (p : Profile) (tname url : String) :
    Outcome :=
  match env.net (requestFor p url) with
  | .error e => ⟨ctx, fs, [], some e⟩
  | .ok resp =>
    let ct := contentTypeOf resp
    match contentLengthOf resp with
    | .error e => ⟨ctx, fs, [], some e⟩
    | .ok clen =>
      let sc := resp.statusCode
      let line := Output.info s!"status: {sc} | type: {ct} | size: {clen}"
      if sc = 200 then
        let o := dispatchHandlers env ctx fs p (⟨tname, emptyDoc⟩ : Tab) resp ct
        { o with out := line :: o.out }
      else ⟨ctx, fs, [line], none⟩

/-- Models `Context.get`: scheme and netloc validation, tab-name defaulting, and
target-profile resolution (explicit name via `get_profile`, which can
raise; otherwise the active profile or an error). -/
def getOp (env : Env) (ctx : Ctx) (fs : FS) (url : String)
    (profileName tabName : Option String) : Outcome :=
  let scheme := urlScheme url
  if !(scheme = "http" || scheme = "https") then
    ⟨ctx, fs, [.error s!"scheme '{scheme}' is not supported"], none⟩
  else if urlNetloc url = "" then
    ⟨ctx, fs, [.error "no netloc found in url"], none⟩
  else
    let tname := tabName.getD (urlNetloc url)
    match profileName with
    | none =>
      match activeProfile ctx with
      | none =>
        ⟨ctx, fs, [.error "no profile specified in command and no profile set as current"], none⟩
      | some p => getFetch env ctx fs p tname url
    | some pn =>
      match getProfileOp ctx fs pn with
      | .error e => ⟨ctx, fs, [], some e⟩
      | .ok (p, ctx2) => getFetch env ctx2 fs p tname url

/-- Models `Context.print_tabs`: one panel per loaded profile with a non-empty
registry, listing handle, name and title per tab. -/
def printTabsOp (ctx : Ctx) (fs : FS) : Outcome :=
  ⟨ctx, fs,
   [.renderTabs (ctx.profiles.filterMap (fun e =>
      if e.snd.tabs.isEmpty then none
      else some (e.fst, e.snd.tabs.map (fun kt => (kt.fst, kt.snd.name, kt.snd.title)))))],
   none⟩

def stripEnd (suf l : List Char) : Option (List Char) :=
  if suf.isSuffixOf l then some (l.take (l.length - suf.length)) else none

/-- The `listdir(PROFILES)` scan of `Context.print_profiles`: the stems of
the entries whose suffix is `.profile`. -/
def profileStems (fs : FS) : List String :=
  fs.filterMap (fun e =>
    match litAt "profiles/".data e.fst.data with
    | some rest =>
      match stripEnd ".profile".data rest with
      | some stem => some (⟨stem⟩ : String)
      | none => none
    | none => none)

/-- The `get_profile` loop of `print_profiles`: profiles cached before an
exception stay cached; the exception propagates. -/
def loadAll (ctx : Ctx) (fs : FS) : List String → Ctx × Option PyErr
  | [] => (ctx, none)
  | n :: rest =>
    match getProfileOp ctx fs n with
    | .error e => (ctx, some e)
    | .ok (_, ctx2) => loadAll ctx2 fs rest

/-- Models `Context.print_profiles`: load every profile found on disk, then render
one panel per loaded profile (cookie count and settings). -/
def printProfilesOp (ctx : Ctx) (fs : FS) : Outcome :=
  match loadAll ctx fs (profileStems fs) with
  | (ctx2, some e) => ⟨ctx2, fs, [], some e⟩
  | (ctx2, none) =>
    ⟨ctx2, fs,
     [.renderProfiles (ctx2.profiles.map (fun e =>
        (e.fst, e.snd.settings, e.snd.cookies.entries.length)))],
     none⟩

/-- The ten lines of `Context.print_help`. -/
def helpLines : List Output :=
  [.print "help: prints this help",
   .print "get <url> (as <profile>)? (to <tab>)?: visit <url>, using <profile> or the current one, sending the result to a new tab named <tab> or a new tab with an automatically picked name",
   .print "tabs: displays a list of active tabs and the profile used to open each one",
   .print "tab <selection>: switch to a tab by numerical key or by looking for a tab with a name or title starting with <selection>. Please note that you can only switch to tabs owned by your current profile",
   .print "profiles: prints a list of existing profiles",
   .print "profile <name>: switch to a profile, or create a new profile with that name if it doesn't exist",
   .print "setting <name> <value>: change a setting for the current profile",
   .print "clear cookies: clear all cookies from the current profile",
   .print "fork profile <name>: create a new profile named <name> by copying the settings and cookies of the current profile",
   .print "delete profile: delete the current profile from disk and memory"]

/-! ### Command grammar (`process_command`'s ordered regex table)

Each pattern is anchored at the start of the line (`re.match`), so a
pattern may also fire on a longer line that merely begins with it.  `\S*`
captures a maximal run of non-whitespace characters, `\w*` a maximal run
of word characters; the optional groups of the `get` pattern attempt their
literal (starting with a space) exactly where the previous capture
stopped. -/

/-- Python regex `\s` class membership. -/
def isSpaceChar (c : Char) : Bool :=
  c == ' ' || c == '\t' || c == '\n' || c == '\x0d' || c == '\x0b' || c == '\x0c'

def nonSpace (c : Char) : Bool := !isSpaceChar c

/-- Python regex `\w` class membership (the ASCII part). -/
def isWordChar (c : Char) : Bool := c.isAlpha || c.isDigit || c == '_'

/-- The structured action a matched command line dispatches to. -/
inductive Command where
  | help
  | get (url : String) (profileName tabName : Option String)
  | tabs
  | tab (selection : String)
  | profiles
  | profile (name : String)
  | setting (name value : String)
  | clearCookies
  | forkProfile (name : String)
  | deleteProfile
  | unknown
deriving DecidableEq

/-- Groups of `GET_COMMAND` after the literal `"get "`: the `\S*` URL,
then the optional `" as \w*"` and `" to \w*"` groups in order. -/
def parseGetArgs (rest : List Char) : Command :=
  let url : String := ⟨rest.takeWhile nonSpace⟩
  let r1 := rest.dropWhile nonSpace
  match litAt " as ".data r1 with
  | some r2 =>
    let pn : String := ⟨r2.takeWhile isWordChar⟩
    let r3 := r2.dropWhile isWordChar
    match litAt " to ".data r3 with
    | some r4 => .get url (some pn) (some (⟨r4.takeWhile isWordChar⟩ : String))
    | none => .get url (some pn) none
  | none =>
    match litAt " to ".data r1 with
    | some r4 => .get url none (some (⟨r4.takeWhile isWordChar⟩ : String))
    | none => .get url none none

/-- Groups of `SETTING_COMMAND` after the literal `"setting "`: `\S*`,
one literal space, `\S*`; with no space after the first token the whole
pattern fails and the line falls through to the later patterns. -/
def parseSettingArgs (rest : List Char) : Option Command :=
  let n : String := ⟨rest.takeWhile nonSpace⟩
  match rest.dropWhile nonSpace with
  | ' ' :: r2 => some (.setting n (⟨r2.takeWhile nonSpace⟩ : String))
  | _ => none

def tryHelp (l : List Char) : Option Command :=
  (litAt "help".data l).map (fun _ => .help)

def tryGet (l : List Char) : Option Command :=
  (litAt "get ".data l).map parseGetArgs

def tryTabs (l : List Char) : Option Command :=
  (litAt "tabs".data l).map (fun _ => .tabs)

def tryTab (l : List Char) : Option Command :=
  (litAt "tab ".data l).map (fun rest => .tab (⟨rest.takeWhile nonSpace⟩ : String))

def tryProfiles (l : List Char) : Option Command :=
  (litAt "profiles".data l).map (fun _ => .profiles)

def tryProfile (l : List Char) : Option Command :=
  (litAt "profile ".data l).map (fun rest => .profile (⟨rest.takeWhile isWordChar⟩ : String))

def trySetting (l : List Char) : Option Command :=
  (litAt "setting ".data l).bind parseSettingArgs

def tryClearCookies (l : List Char) : Option Command :=
  (litAt "clear cookies".data l).map (fun _ => .clearCookies)

def tryFork (l : List Char) : Option Command :=
  (litAt "fork profile ".data l).map
    (fun rest => .forkProfile (⟨rest.takeWhile isWordChar⟩ : String))

def tryDelete (l : List Char) : Option Command :=
  (litAt "delete profile".data l).map (fun _ => .deleteProfile)

/-- The ordered pattern table of `process_command`: the first pattern that
matches wins, and a line matching none of them is the unknown command. -/
def parseCommand (cmd : String) : Command :=
  let l := cmd.data
  (((((((((tryHelp l).orElse (fun _ => tryGet l)).orElse
      (fun _ => tryTabs l)).orElse
      (fun _ => tryTab l)).orElse
      (fun _ => tryProfiles l)).orElse
      (fun _ => tryProfile l)).orElse
      (fun _ => trySetting l)).orElse
      (fun _ => tryClearCookies l)).orElse
      (fun _ => tryFork l)).orElse
      (fun _ => tryDelete l)
  |>.getD .unknown

/-- Models `Context.process_command`: parse the line against the ordered grammar
and run the corresponding handler; an unmatched line reports the unknown-
command error.  `fork profile` is the unconditional not-implemented stub. -/
def processCommand (env : Env) (ctx : Ctx) (fs : FS) (cmd : String) : Outcome :=
  match parseCommand cmd with
  | .help => ⟨ctx, fs, helpLines, none⟩
  | .get url pn tn => getOp env ctx fs url pn tn
  | .tabs => printTabsOp ctx fs
  | .tab sel => changeTabOp ctx fs sel
  | .profiles => printProfilesOp ctx fs
  | .profile n => changeProfileOp ctx fs n
  | .setting n v => setSettingOp ctx fs n v
  | .clearCookies => clearCookiesOp ctx fs
  | .forkProfile _ => ⟨ctx, fs, [.error "not implemented"], none⟩
  | .deleteProfile => deleteProfileOp ctx fs
  | .unknown => ⟨ctx, fs, [.error "not a known command"], none⟩

/-! ### Concrete fixtures used by the witnesses and counterexamples -/

/-- The built-in default user-agent string. -/
def defaultUA : String := "Mozilla/5.0 (X11; Ubuntu; NoPointer) Gecko/20100101 Serket/0.1"

def fsEmpty : FS := []

/-- An environment whose transport always fails (host unreachable), with
an empty parser, no filename override, and no interrupt. -/
def envOffline : Env :=
  ⟨fun _ => .error (.netError "unreachable host"), fun _ => emptyDoc, "", none⟩

def ctxEmpty : Ctx := ⟨[], none, none⟩

/-- Tab A of the spec's `select_tab` example: named "Foo", titled "Zeta". -/
def tabFoo : Tab := ⟨"Foo", ⟨[], some "Zeta"⟩⟩

/-- Tab B of the spec's `select_tab` example: named "Bar", titled "football". -/
def tabBar : Tab := ⟨"Bar", ⟨[], some "football"⟩⟩

/-- A profile holding the example tabs at handles 0 and 1, in that
insertion order. -/
def profWork : Profile := ⟨"work", seedDefaults [], [], emptyJar, [(0, tabFoo), (1, tabBar)]⟩

/-- A session whose active profile is `profWork` and whose active tab is
`tabFoo` (a reference into the active profile's registry). -/
def ctxWork : Ctx := ⟨[("work", profWork)], some "work", some tabFoo⟩

/-- A profile with an explicitly configured proxy map. -/
def profProxy : Profile :=
  ⟨"alice", seedDefaults [], [("http", "http://proxy.local:8080")], emptyJar, []⟩

def ctxAlice : Ctx := ⟨[("alice", profProxy)], some "alice", none⟩

/-- Disk state with all three artifacts of profile "alice" present. -/
def fsAliceAll : FS :=
  [(cookiesPath "alice", .cookiesData ⟨[("sid", "abc")]⟩),
   (profilePath "alice", .jsonDict [("user-agent", "stored-ua")]),
   (proxiesPath "alice", .jsonDict [("http", "http://proxy.local:8080")])]

/-- A freshly constructed profile "alice" (what `Profile("alice")` yields). -/
def profAliceFresh : Profile := ⟨"alice", seedDefaults [], [], emptyJar, []⟩

/-- An image response with three two-byte chunks. -/
def respImg : Response :=
  ⟨200, [("content-type", "image/png"), ("content-length", "6")],
   "http://h/pic.png", [[1, 2], [3, 4], [5, 6]], none⟩

/-- An environment whose download loop is interrupted after two chunks. -/
def envCancel : Env := ⟨fun _ => .ok respImg, fun _ => emptyDoc, "", some 2⟩

/-- A tab whose name starts with the text "-1". -/
def tabNeg : Tab := ⟨"-1 draft", ⟨[], none⟩⟩

/-- A profile holding `tabNeg` at handle 0 and `tabFoo` at handle 2. -/
def profNeg : Profile := ⟨"neg", seedDefaults [], [], emptyJar, [(0, tabNeg), (2, tabFoo)]⟩

def ctxNeg : Ctx := ⟨[("neg", profNeg)], some "neg", none⟩

/-! ### Helper lemmas -/

theorem hasKey_iff_mem (tabs : List (Nat × Tab)) (n : Nat) :
    hasKey tabs n = true ↔ n ∈ tabs.map Prod.fst := by
  unfold hasKey
  rw [List.any_eq_true]
  constructor
  · rintro ⟨e, he, heq⟩
    exact List.mem_map.mpr ⟨e, he, by simpa using heq⟩
  · intro hm
    obtain ⟨e, he, hfst⟩ := List.mem_map.mp hm
    exact ⟨e, he, by simp [hfst]⟩

theorem findFree_spec (tabs : List (Nat × Tab)) :
    ∀ (fuel start : Nat),
      (∃ j, start ≤ j ∧ j < start + fuel ∧ hasKey tabs j = false) →
      hasKey tabs (findFree tabs fuel start) = false ∧
      start ≤ findFree tabs fuel start ∧
      ∀ m, start ≤ m → m < findFree tabs fuel start → hasKey tabs m = true := by
  intro fuel
  induction fuel with
  | zero =>
    intro start h
    obtain ⟨j, hj1, hj2, _⟩ := h
    omega
  | succ n ih =>
    intro start h
    obtain ⟨j, hj1, hj2, hjf⟩ := h
    cases hk : hasKey tabs start with
    | false =>
      have hred : findFree tabs (n + 1) start = start := by
        simp [findFree, hk]
      rw [hred]
      exact ⟨hk, Nat.le_refl _, fun m hm1 hm2 => absurd (Nat.lt_of_lt_of_le hm2 hm1) (Nat.lt_irrefl m)⟩
    | true =>
      have hred : findFree tabs (n + 1) start = findFree tabs n (start + 1) := by
        simp [findFree, hk]
      rw [hred]
      have hjs : start + 1 ≤ j := by
        rcases Nat.eq_or_lt_of_le hj1 with heq | hlt
        · rw [← heq, hk] at hjf; cases hjf
        · omega
      obtain ⟨h1, h2, h3⟩ := ih (start + 1) ⟨j, hjs, by omega, hjf⟩
      refine ⟨h1, by omega, fun m hm1 hm2 => ?_⟩
      rcases Nat.eq_or_lt_of_le hm1 with heq | hlt
      · rw [← heq]; exact hk
      · exact h3 m hlt hm2

theorem exists_free_handle (tabs : List (Nat × Tab)) :
    ∃ j, j ≤ tabs.length ∧ hasKey tabs j = false := by
  by_contra hcon
  push_neg at hcon
  have hall : ∀ j, j ≤ tabs.length → hasKey tabs j = true := by
    intro j hj
    cases hk : hasKey tabs j with
    | false => exact absurd hk (hcon j hj)
    | true => rfl
  have hsub : List.range (tabs.length + 1) ⊆ tabs.map Prod.fst := by
    intro j hj
    rw [List.mem_range] at hj
    exact (hasKey_iff_mem tabs j).mp (hall j (by omega))
  have hlen := ((List.nodup_range (tabs.length + 1)).subperm hsub).length_le
  simp only [List.length_range, List.length_map] at hlen
  omega

/-- Lemma: `freshHandle` is free and everything below it is taken: this is the
smallest-free-handle characterisation of the `add_tab` loop. -/
theorem freshHandle_spec (tabs : List (Nat × Tab)) :
    hasKey tabs (freshHandle tabs) = false ∧
    ∀ m < freshHandle tabs, hasKey tabs m = true := by
  obtain ⟨j, hj, hjf⟩ := exists_free_handle tabs
  have h := findFree_spec tabs (tabs.length + 1) 0 ⟨j, Nat.zero_le _, by omega, hjf⟩
  exact ⟨h.1, fun m hm => h.2.2 m (Nat.zero_le _) hm⟩

/-- The smallest free handle is unique: any free handle below which
everything is taken is the fresh handle. -/
theorem freshHandle_eq_of (tabs : List (Nat × Tab)) (k : Nat)
    (hfree : hasKey tabs k = false) (hbelow : ∀ m < k, hasKey tabs m = true) :
    freshHandle tabs = k := by
  obtain ⟨h1, h2⟩ := freshHandle_spec tabs
  rcases Nat.lt_trichotomy (freshHandle tabs) k with hlt | heq | hgt
  · rw [hbelow _ hlt] at h1; cases h1
  · exact heq
  · rw [h2 k hgt] at hfree; cases hfree

/-- After `rem_tab k`, the handle `k` is no longer present. -/
theorem remTab_freed (p : Profile) (k : Nat) (q : Profile)
    (h : p.remTab k = .ok q) : hasKey q.tabs k = false := by
  unfold Profile.remTab at h
  cases hk : hasKey p.tabs k with
  | false => rw [hk] at h; simp at h
  | true =>
    rw [hk] at h
    simp only [if_true] at h
    injection h with h2
    rw [← h2]
    simp [hasKey, List.any_eq_true, List.mem_filter]

/-- Lemma: `find?` returns the first satisfying element: it satisfies the
predicate and everything before it fails it. -/
theorem find?_first {α : Type} (p : α → Bool) :
    ∀ (l : List α) (x : α), l.find? p = some x →
      p x = true ∧ ∃ l1 l2, l = l1 ++ x :: l2 ∧ ∀ y ∈ l1, p y = false := by
  intro l
  induction l with
  | nil => intro x h; cases h
  | cons a as ih =>
    intro x h
    cases hp : p a with
    | true =>
      rw [List.find?_cons_of_pos _ hp] at h
      injection h with h2
      rw [← h2]
      exact ⟨hp, [], as, rfl, fun y hy => absurd hy (List.not_mem_nil y)⟩
    | false =>
      rw [List.find?_cons_of_neg _ (by simp [hp])] at h
      obtain ⟨h1, l1, l2, h3, h4⟩ := ih x h
      refine ⟨h1, a :: l1, l2, by rw [h3]; rfl, fun y hy => ?_⟩
      rcases List.mem_cons.mp hy with heq | hmem
      · rw [heq]; exact hp
      · exact h4 y hmem

theorem dictGet_map_set {κ α : Type} [BEq κ] [LawfulBEq κ] :
    ∀ (d : List (κ × α)) (k : κ) (v : α), d.any (fun e => e.fst == k) = true →
      dictGet (d.map (fun e => if e.fst == k then (k, v) else e)) k = some v := by
  intro d
  induction d with
  | nil => intro k v h; cases h
  | cons a as ih =>
    intro k v h
    by_cases ha : (a.fst == k) = true
    · simp [dictGet, List.find?, ha]
    · simp only [List.any_cons] at h
      rw [Bool.eq_false_iff.mpr ha, Bool.false_or] at h
      simp only [List.map_cons, if_neg ha]
      simp only [dictGet, List.find?, ha]
      exact ih k v h

theorem dictGet_append_last {κ α : Type} [BEq κ] [LawfulBEq κ] :
    ∀ (d : List (κ × α)) (k : κ) (v : α), d.any (fun e => e.fst == k) = false →
      dictGet (d ++ [(k, v)]) k = some v := by
  intro d
  induction d with
  | nil => intro k v _; simp [dictGet, List.find?]
  | cons a as ih =>
    intro k v h
    simp only [List.any_cons, Bool.or_eq_false_iff] at h
    simp only [List.cons_append, dictGet, List.find?, h.1]
    exact ih k v h.2

/-- Aftermath of `d[k] = v`: looking up `k` yields `v`. -/
theorem dictGet_dictSet {κ α : Type} [BEq κ] [LawfulBEq κ]
    (d : List (κ × α)) (k : κ) (v : α) : dictGet (dictSet d k v) k = some v := by
  unfold dictSet
  cases h : d.any (fun e => e.fst == k) with
  | true => rw [if_pos rfl]; exact dictGet_map_set d k v h
  | false => rw [if_neg (by simp)]; exact dictGet_append_last d k v h

/-- Writing a file and reading it back at the same path. -/
theorem fsGet_fsSet (fs : FS) (path : String) (c : FileContent) :
    fsGet (fsSet fs path c) path = some c := by
  unfold fsGet fsSet
  exact dictGet_dictSet fs path c

/-- Lemma: `get_profile` never touches the active profile or the active tab. -/
theorem getProfileOp_preserves (ctx : Ctx) (fs : FS) (n : String)
    (p : Profile) (ctx2 : Ctx) (h : getProfileOp ctx fs n = .ok (p, ctx2)) :
    ctx2.tab = ctx.tab ∧ ctx2.active = ctx.active := by
  cases hd : dictGet ctx.profiles n with
  | some q =>
    simp only [getProfileOp, hd] at h
    injection h with h2
    injection h2 with h3 h4
    rw [← h4]
    exact ⟨rfl, rfl⟩
  | none =>
    cases hm : mkProfile n with
    | error e =>
      simp only [getProfileOp, hd, hm] at h
      exact Except.noConfusion h
    | ok p0 =>
      cases hl : loadFromDisk fs p0 with
      | error e2 =>
        simp only [getProfileOp, hd, hm, hl] at h
        exact Except.noConfusion h
      | ok p1 =>
        simp only [getProfileOp, hd, hm, hl] at h
        injection h with h2
        injection h2 with h3 h4
        rw [← h4]
        exact ⟨rfl, rfl⟩

/-! ### C8 — tab handle assignment -/

def tabStub (s : String) : Tab := ⟨s, emptyDoc⟩

/-- A profile with tabs at handles 0, 1 and 2 (the spec's `{0,1,2}`
example). -/
def profThree : Profile :=
  ⟨"three", seedDefaults [], [], emptyJar,
   [(0, tabStub "a"), (1, tabStub "b"), (2, tabStub "c")]⟩

/-- Six tabs added to a fresh profile via `add_tab`, giving handles 0–5. -/
def profSix : Profile :=
  (((((((⟨"x", seedDefaults [], [], emptyJar, []⟩ : Profile).addTab
    (tabStub "t0")).addTab (tabStub "t1")).addTab (tabStub "t2")).addTab
    (tabStub "t3")).addTab (tabStub "t4")).addTab (tabStub "t5"))

/-- Fixture: `profSix` after `rem_tab 2`, `rem_tab 3`, `rem_tab 4`: handles
`{0, 1, 5}` remain — a state reachable through the registry operations
alone. -/
def prof015 : Except PyErr Profile :=
  (profSix.remTab 2).bind (fun q => (q.remTab 3).bind (fun r => r.remTab 4))

/-- C8 counterexample: starting from the reachable registry `{0, 1, 5}`,
removing handle 5 and then adding a tab assigns handle 2, not the freed
handle 5 — refuting "after removing a handle via rem_tab the next
addition receives that freed handle". -/
theorem C8_counterexample :
    (prof015.map (fun q => q.tabs.map Prod.fst) = .ok [0, 1, 5]) ∧
    ((prof015.bind (fun q => q.remTab 5)).map
        (fun r => (freshHandle r.tabs, (r.addTab (tabStub "new")).tabs.map Prod.fst))
      = .ok (2, [0, 1, 2])) ∧ (2 : Nat) ≠ 5 := by
  refine ⟨by decide, by decide, by decide⟩

/-- C8 (amended): every `add_tab` assigns the smallest non-negative
integer not currently in use in the profile's tab map; after `rem_tab k`
the next addition receives the freed handle `k` exactly when every handle
below `k` is still in use (in particular, removing handle 1 from
`{0,1,2}` makes the next addition receive 1, not 3 — but removing handle
5 from `{0,1,5}` makes it receive 2). -/
theorem C8_smallest_free_handle (p : Profile) (t : Tab) :
    ((p.addTab t).tabs = p.tabs ++ [(freshHandle p.tabs, t)] ∧
     hasKey p.tabs (freshHandle p.tabs) = false ∧
     ∀ m < freshHandle p.tabs, hasKey p.tabs m = true) ∧
    (∀ (k : Nat) (q : Profile), p.remTab k = .ok q →
       (∀ m < k, hasKey q.tabs m = true) → freshHandle q.tabs = k) := by
  refine ⟨⟨rfl, (freshHandle_spec p.tabs).1, (freshHandle_spec p.tabs).2⟩, ?_⟩
  intro k q hrem hbelow
  exact freshHandle_eq_of q.tabs k (remTab_freed p k q hrem) hbelow

/-- C8 witness: removing handle 1 from the `{0,1,2}` registry makes the
next addition receive 1 (the spec's example), via the amended theorem. -/
theorem C8_smallest_free_handle_witness :
    Profile.remTab profThree 1 =
      .ok ⟨"three", seedDefaults [], [], emptyJar, [(0, tabStub "a"), (2, tabStub "c")]⟩ ∧
    freshHandle [(0, tabStub "a"), (2, tabStub "c")] = 1 := by
  refine ⟨by decide, ?_⟩
  exact (C8_smallest_free_handle profThree (tabStub "w")).2 1
    ⟨"three", seedDefaults [], [], emptyJar, [(0, tabStub "a"), (2, tabStub "c")]⟩
    (by decide) (by decide)

/-! ### C9 — `select_tab` first-match semantics -/

/-- C9: for a non-integer selection, `select_tab` scans tabs in insertion
order and returns the first whose name or title starts with the selection
case-insensitively (the first tab satisfying either condition wins, later
tabs are never preferred), and `change_tab` reports not-found when no tab
matches. -/
theorem C9_select_tab_first_match (p : Profile) (sel : String) :
    (p.selectTab sel = none ↔ ∀ t ∈ tabList p, matchesSelection sel t = false) ∧
    (∀ t, p.selectTab sel = some t →
       matchesSelection sel t = true ∧
       ∃ l1 l2, tabList p = l1 ++ t :: l2 ∧ ∀ u ∈ l1, matchesSelection sel u = false) ∧
    (∀ (ctx : Ctx) (fs : FS), activeProfile ctx = some p → pyParseInt sel = none →
       p.selectTab sel = none →
       changeTabOp ctx fs sel =
         ⟨ctx, fs, [.error s!"no tab has a name or title starting like that: '{sel}'"], none⟩) := by
  refine ⟨?_, ?_, ?_⟩
  · unfold Profile.selectTab
    rw [List.find?_eq_none]
    simp [Bool.not_eq_true]
  · intro t h
    exact find?_first (matchesSelection sel) (tabList p) t h
  · intro ctx fs hact hparse hsel
    simp only [changeTabOp, hact, hparse, Option.getD_none]
    rw [if_pos trivial]
    simp only [byNameBranch, hsel]

/-- C9 witness: tab A named "Foo" titled "Zeta" inserted before tab B
named "Bar" titled "football"; selection "f" returns A (name match found
before B is scanned), via the main theorem. -/
theorem C9_select_tab_first_match_witness :
    Profile.selectTab profWork "f" = some tabFoo ∧
    matchesSelection "f" tabFoo = true ∧
    (∃ l1 l2, tabList profWork = l1 ++ tabFoo :: l2 ∧
       ∀ u ∈ l1, matchesSelection "f" u = false) := by
  have h := (C9_select_tab_first_match profWork "f").2.1 tabFoo (by decide)
  exact ⟨by decide, h.1, h.2⟩

/-! ### C10 — the `-1` parse sentinel of `change_tab` -/

/-- C10: with an active profile, the selection "-1" is never looked up as
a tab handle: `int("-1")` succeeds with the same value as the
failed-parse sentinel, so "tab -1" takes the case-insensitive name/title
search branch; every other integer-valued selection is looked up directly
by handle. -/
theorem C10_minus_one_is_sentinel (ctx : Ctx) (fs : FS) (p : Profile)
    (hact : activeProfile ctx = some p) :
    changeTabOp ctx fs "-1" = byNameBranch ctx fs p "-1" ∧
    (∀ (sel : String) (k : Int), pyParseInt sel = some k → k ≠ -1 →
       changeTabOp ctx fs sel = byKeyBranch ctx fs p k) := by
  constructor
  · simp only [changeTabOp, hact]
    rfl
  · intro sel k hk hne
    simp only [changeTabOp, hact, hk, Option.getD_some]
    rw [if_neg hne]

/-- C10 witness: in a session whose active profile holds a tab named
"-1 draft" at handle 0, the command selection "-1" runs the name-search
branch (selecting that tab by prefix), while selection "2" is looked up
directly as handle 2. -/
theorem C10_minus_one_is_sentinel_witness :
    changeTabOp ctxNeg fsEmpty "-1" = byNameBranch ctxNeg fsEmpty profNeg "-1" ∧
    changeTabOp ctxNeg fsEmpty "2" = byKeyBranch ctxNeg fsEmpty profNeg 2 ∧
    (byNameBranch ctxNeg fsEmpty profNeg "-1").ctx.tab = some tabNeg ∧
    (byKeyBranch ctxNeg fsEmpty profNeg 2).ctx.tab = some tabFoo := by
  have h := C10_minus_one_is_sentinel ctxNeg fsEmpty profNeg (by decide)
  exact ⟨h.1, h.2 "2" 2 (by decide) (by decide), by decide, by decide⟩

/-! ### C1 — exception discipline of `process_command` -/

/-- C1 counterexample: the recognized command line "profile " (empty
capture for the name) reaches `Profile("")`, whose `__post_init__` raises
`RuntimeError`; nothing in `change_profile`, `get_profile` or
`process_command` catches it, so the exception propagates out of the
command handler instead of being converted into a reported error. -/
theorem C1_counterexample :
    parseCommand "profile " = .profile "" ∧
    (processCommand envOffline ctxEmpty fsEmpty "profile ").exn =
      some (.runtimeError "tried to create a profile with no name") := by
  refine ⟨by decide, by decide⟩

/-- C1 (amended): unmatched input yields the "not a known command" error
and never throws, but recognized commands do not convert every failure:
"profile" with an empty name propagates the `RuntimeError` raised by
profile construction, and a `get` whose transport call fails propagates
the transport exception out of `process_command` (only the top-level
fatal handler of `main` sees it). -/
theorem C1_error_reporting (env : Env) (ctx : Ctx) (fs : FS) :
    (∀ cmd : String, parseCommand cmd = .unknown →
       processCommand env ctx fs cmd = ⟨ctx, fs, [.error "not a known command"], none⟩) ∧
    (dictGet ctx.profiles "" = none →
       (processCommand env ctx fs "profile ").exn =
         some (.runtimeError "tried to create a profile with no name")) ∧
    (∀ (p : Profile) (e : PyErr), activeProfile ctx = some p →
       env.net (requestFor p "http://h/") = .error e →
       (processCommand env ctx fs "get http://h/").exn = some e) := by
  refine ⟨?_, ?_, ?_⟩
  · intro cmd h
    simp only [processCommand, h]
  · intro h
    have hp : parseCommand "profile " = .profile "" := by decide
    simp only [processCommand, hp, changeProfileOp, getProfileOp, h]
    rfl
  · intro p e hact hnet
    have hp : parseCommand "get http://h/" = .get "http://h/" none none := by decide
    simp only [processCommand, hp, getOp, getFetch, hact, hnet]
    rfl

/-- C1 witness: concrete instantiations of the three amended clauses — an
unmatched line, the empty-name profile command, and a `get` against an
unreachable host. -/
theorem C1_error_reporting_witness :
    processCommand envOffline ctxWork fsEmpty "frobnicate" =
      ⟨ctxWork, fsEmpty, [.error "not a known command"], none⟩ ∧
    (processCommand envOffline ctxWork fsEmpty "profile ").exn =
      some (.runtimeError "tried to create a profile with no name") ∧
    (processCommand envOffline ctxWork fsEmpty "get http://h/").exn =
      some (.netError "unreachable host") := by
  have h := C1_error_reporting envOffline ctxWork fsEmpty
  exact ⟨h.1 "frobnicate" (by decide), h.2.1 (by decide),
         h.2.2 profWork (.netError "unreachable host") (by decide) (by decide)⟩

/-! ### C2 — crash safety of the artifact writes -/

/-- Disk state with a previously persisted settings artifact for
profile "alice". -/
def fsAliceOld : FS := [(profilePath "alice", .jsonDict [("user-agent", "old-ua")])]

/-- A profile "alice" whose settings differ from the persisted artifact. -/
def profAliceNew : Profile :=
  ⟨"alice", [("user-agent", "new-ua")], [], emptyJar, []⟩

/-- C2 counterexample: the settings write trace of `_save_profile_settings`
is not crash-safe — `open(path, "w")` truncates the prior artifact in
place, so the intermediate state shows neither the prior artifact nor the
new one. -/
theorem C2_counterexample :
    ¬ crashSafeTrace (saveSettingsStates fsAliceOld profAliceNew)
        (profilePath "alice") (fsGet fsAliceOld (profilePath "alice"))
        (.jsonDict profAliceNew.settings) := by
  unfold crashSafeTrace saveSettingsStates directWriteStates
  decide

/-- C2 (amended): each of the three artifact writes of `save_to_disk`
opens the final path directly with a truncating mode and writes in place
— no temporary location, no atomic replace — so whenever a prior artifact
was present and readable, the write trace passes through an intermediate
on-disk state that is neither the prior artifact nor the new one (a crash
there loses the previously persisted state). -/
theorem C2_in_place_writes (fs : FS) (p : Profile)
    (h1 : fsGet fs (cookiesPath p.name) ≠ some .corrupt)
    (h2 : fsGet fs (profilePath p.name) ≠ some .corrupt)
    (h3 : fsGet fs (proxiesPath p.name) ≠ some .corrupt) :
    (∃ s ∈ saveCookiesStates fs p,
       fsGet s (cookiesPath p.name) ≠ fsGet fs (cookiesPath p.name) ∧
       fsGet s (cookiesPath p.name) ≠ some (.cookiesData p.cookies)) ∧
    (∃ s ∈ saveSettingsStates fs p,
       fsGet s (profilePath p.name) ≠ fsGet fs (profilePath p.name) ∧
       fsGet s (profilePath p.name) ≠ some (.jsonDict p.settings)) ∧
    (∃ s ∈ saveProxiesStates fs p,
       fsGet s (proxiesPath p.name) ≠ fsGet fs (proxiesPath p.name) ∧
       fsGet s (proxiesPath p.name) ≠ some (.jsonDict p.proxies)) := by
  refine ⟨⟨fsSet fs (cookiesPath p.name) .corrupt, ?_, ?_, ?_⟩,
          ⟨fsSet fs (profilePath p.name) .corrupt, ?_, ?_, ?_⟩,
          ⟨fsSet fs (proxiesPath p.name) .corrupt, ?_, ?_, ?_⟩⟩
  · simp [saveCookiesStates, directWriteStates]
  · rw [fsGet_fsSet]; exact fun hc => h1 hc.symm
  · rw [fsGet_fsSet]; simp
  · simp [saveSettingsStates, directWriteStates]
  · rw [fsGet_fsSet]; exact fun hc => h2 hc.symm
  · rw [fsGet_fsSet]; simp
  · simp [saveProxiesStates, directWriteStates]
  · rw [fsGet_fsSet]; exact fun hc => h3 hc.symm
  · rw [fsGet_fsSet]; simp

/-- C2 witness: the amended theorem at the concrete "alice" disk state. -/
theorem C2_in_place_writes_witness :
    ∃ s ∈ saveSettingsStates fsAliceOld profAliceNew,
      fsGet s (profilePath "alice") ≠ fsGet fsAliceOld (profilePath "alice") ∧
      fsGet s (profilePath "alice") ≠ some (.jsonDict profAliceNew.settings) := by
  exact (C2_in_place_writes fsAliceOld profAliceNew (by decide) (by decide) (by decide)).2.1

/-! ### C3 — the active-tab/active-profile invariant -/

/-- C3 counterexample: in a session whose active profile owns the active
tab, the "delete profile" command unsets the active profile but leaves
the active tab set — the previously active tab is neither cleared nor
replaced, so a tab stays "active" with no active owning profile. -/
theorem C3_counterexample :
    dictGet profWork.tabs 0 = some tabFoo ∧
    activeProfile ctxWork = some profWork ∧ ctxWork.tab = some tabFoo ∧
    (processCommand envOffline ctxWork fsEmpty "delete profile").ctx.active = none ∧
    (processCommand envOffline ctxWork fsEmpty "delete profile").ctx.tab = some tabFoo := by
  refine ⟨by decide, by decide, by decide, by decide, by decide⟩

/-- C3 (amended): neither `change_profile` nor `delete_profile` touches
the active tab — both leave it exactly as it was, so after an active
profile change or deletion the previously active tab remains set as a
stale reference into a non-active profile's tab registry.  The invariant
is re-established only by `change_tab` and by the HTML handler. -/
theorem C3_stale_tab (ctx : Ctx) (fs : FS) (name : String) :
    (changeProfileOp ctx fs name).ctx.tab = ctx.tab ∧
    (deleteProfileOp ctx fs).ctx.tab = ctx.tab := by
  constructor
  · unfold changeProfileOp
    cases hg : getProfileOp ctx (outgoingSave ctx fs) name with
    | error e => rfl
    | ok pc =>
      obtain ⟨p, ctx2⟩ := pc
      exact (getProfileOp_preserves ctx (outgoingSave ctx fs) name p ctx2 hg).1
  · unfold deleteProfileOp
    cases activeProfile ctx with
    | none => rfl
    | some p => rfl

/-! ### C4 — user-agent header and proxies on the outgoing request -/

/-- A transport probe that errors out in a recognizable way exactly when
the request it receives carries the un-unwrapped `Result` wrapper as its
`User-Agent` value together with an empty proxy mapping. -/
def envProbe : Env :=
  ⟨fun req =>
     if req.userAgent = .result (.Ok defaultUA) ∧ req.proxies = [] then
       .error (.netError "wrapped header and empty proxies")
     else .error (.netError "other request"),
   fun _ => emptyDoc, "", none⟩

/-- C4: the code puts `get_setting`'s `Result` wrapper — not the setting
string — into the `User-Agent` header slot (line 219 lacks an unwrap),
and never applies the profile's proxy map to the session or the request
(`session.proxies` is never assigned), so the streaming GET goes out with
the default empty proxy mapping even for a profile with configured
proxies.  The probe transport observes exactly this request through the
full `process_command` pipeline. -/
theorem C4_code_bug :
    requestFor profProxy "http://example.com/" =
      ⟨"http://example.com/", .result (.Ok defaultUA), []⟩ ∧
    (requestFor profProxy "http://example.com/").userAgent ≠ .str defaultUA ∧
    profProxy.proxies ≠ [] ∧
    (requestFor profProxy "http://example.com/").proxies ≠ profProxy.proxies ∧
    (processCommand envProbe ctxAlice fsEmpty "get http://example.com/").exn =
      some (.netError "wrapped header and empty proxies") := by
  refine ⟨by decide, by decide, by decide, by decide, by decide⟩

/-! ### C5 — cancelled image download -/

/-- C5 counterexample: a download of three chunks cancelled after two
reports the interruption error and emits no success message, but the
partially written file stays in the downloads directory — `ImageHandler.run`
has no cleanup in its `except KeyboardInterrupt` arm. -/
theorem C5_counterexample :
    (imageRun envCancel ctxEmpty fsEmpty respImg).out = [.error "Interrupted by user"] ∧
    fsGet (imageRun envCancel ctxEmpty fsEmpty respImg).fs (downloadsPath "pic.png") =
      some (.blob [1, 2, 3, 4]) ∧
    fsGet (processCommand envCancel ctxWork fsEmpty "get http://h/pic.png").fs
      (downloadsPath "pic.png") = some (.blob [1, 2, 3, 4]) := by
  refine ⟨by decide, by decide, by decide⟩

/-- C5 (amended): a cancellation mid-stream reports the "Interrupted by
user" error, emits no success message, and raises nothing further — but
the partially written file (the chunks streamed before the interrupt)
remains in the downloads directory; it is not removed. -/
theorem C5_cancelled_download (env : Env) (ctx : Ctx) (fs : FS) (resp : Response)
    (k : Nat) (cl : Int)
    (hcl : contentLengthOf resp = .ok cl) (hc : env.cancelAfter = some k) :
    (imageRun env ctx fs resp).out = [.error "Interrupted by user"] ∧
    (∀ s, Output.success s ∉ (imageRun env ctx fs resp).out) ∧
    (imageRun env ctx fs resp).fs =
      fsSet fs
        (downloadsPath (if env.userFilename = "" then filenameFromUrl resp.url
                        else env.userFilename))
        (.blob (resp.chunks.take k).flatten) ∧
    (imageRun env ctx fs resp).exn = none := by
  have hred : imageRun env ctx fs resp =
      ⟨ctx,
       fsSet fs
         (downloadsPath (if env.userFilename = "" then filenameFromUrl resp.url
                         else env.userFilename))
         (.blob (resp.chunks.take k).flatten),
       [.error "Interrupted by user"], none⟩ := by
    simp only [imageRun, hcl, hc]
  rw [hred]
  refine ⟨rfl, ?_, rfl, rfl⟩
  intro s hs
  simp at hs

/-- C5 witness: the amended theorem at the concrete cancelled download. -/
theorem C5_cancelled_download_witness :
    (imageRun envCancel ctxEmpty fsEmpty respImg).out = [.error "Interrupted by user"] ∧
    (∀ s, Output.success s ∉ (imageRun envCancel ctxEmpty fsEmpty respImg).out) ∧
    (imageRun envCancel ctxEmpty fsEmpty respImg).fs =
      fsSet fsEmpty (downloadsPath "pic.png") (.blob [1, 2, 3, 4]) ∧
    (imageRun envCancel ctxEmpty fsEmpty respImg).exn = none := by
  have h := C5_cancelled_download envCancel ctxEmpty fsEmpty respImg 2 6 (by decide) (by decide)
  refine ⟨h.1, h.2.1, ?_, h.2.2.2⟩
  rw [h.2.2.1]
  decide

/-! ### C6 — loading a profile from disk -/

/-- C6 counterexample: a corrupt settings artifact makes
`load_from_disk` abort with the parse exception — the artifact does not
fall back to defaults, the remaining loaders never run, and through
`get_profile` the exception escapes the "profile alice" command. -/
theorem C6_counterexample :
    loadFromDisk [(profilePath "alice", .corrupt)] profAliceFresh =
      .error .jsonDecodeError ∧
    (processCommand envOffline ctxEmpty [(profilePath "alice", .corrupt)]
      "profile alice").exn = some .jsonDecodeError := by
  refine ⟨by decide, by decide⟩

/-- C6 (amended): only a MISSING artifact degrades gracefully — absent
cookies seed a fresh jar, absent settings re-seed the defaults, absent
proxies load nothing, and loading succeeds; but a corrupt or unreadable
artifact raises its parse error, which propagates out of
`load_from_disk` and aborts profile loading (later artifacts are not
loaded). -/
theorem C6_graceful_only_missing (fs : FS) (p : Profile) :
    (fsGet fs (cookiesPath p.name) = none → fsGet fs (profilePath p.name) = none →
     fsGet fs (proxiesPath p.name) = none →
     loadFromDisk fs p =
       .ok { p with cookies := emptyJar, settings := seedDefaults p.settings }) ∧
    (fsGet fs (cookiesPath p.name) = some .corrupt →
     loadFromDisk fs p = .error .unpicklingError) ∧
    (fsGet fs (cookiesPath p.name) = none →
     fsGet fs (profilePath p.name) = some .corrupt →
     loadFromDisk fs p = .error .jsonDecodeError) ∧
    (fsGet fs (cookiesPath p.name) = none → fsGet fs (profilePath p.name) = none →
     fsGet fs (proxiesPath p.name) = some .corrupt →
     loadFromDisk fs p = .error .jsonDecodeError) := by
  refine ⟨?_, ?_, ?_, ?_⟩
  · intro h1 h2 h3
    simp only [loadFromDisk, loadCookies, h1, loadSettings, h2, loadProxies, h3]
  · intro h1
    simp only [loadFromDisk, loadCookies, h1]
  · intro h1 h2
    simp only [loadFromDisk, loadCookies, h1, loadSettings, h2]
  · intro h1 h2 h3
    simp only [loadFromDisk, loadCookies, h1, loadSettings, h2, loadProxies, h3]

/-- C6 witness: the amended theorem's four clauses at concrete disk
states for a fresh profile "alice". -/
theorem C6_graceful_only_missing_witness :
    loadFromDisk fsEmpty profAliceFresh =
      .ok { profAliceFresh with cookies := emptyJar, settings := seedDefaults profAliceFresh.settings } ∧
    loadFromDisk [(cookiesPath "alice", .corrupt)] profAliceFresh =
      .error .unpicklingError ∧
    loadFromDisk [(profilePath "alice", .corrupt)] profAliceFresh =
      .error .jsonDecodeError ∧
    loadFromDisk [(proxiesPath "alice", .corrupt)] profAliceFresh =
      .error .jsonDecodeError := by
  refine ⟨(C6_graceful_only_missing fsEmpty profAliceFresh).1
            (by decide) (by decide) (by decide),
          (C6_graceful_only_missing [(cookiesPath "alice", .corrupt)] profAliceFresh).2.1
            (by decide),
          (C6_graceful_only_missing [(profilePath "alice", .corrupt)] profAliceFresh).2.2.1
            (by decide) (by decide),
          (C6_graceful_only_missing [(proxiesPath "alice", .corrupt)] profAliceFresh).2.2.2
            (by decide) (by decide) (by decide)⟩

/-! ### C7 — deleting a profile -/

/-- C7: with all three artifacts of the active profile "alice" on disk,
the "delete profile" command removes the cookies and settings artifacts,
evicts the in-memory entry and unsets the active profile — but the
proxies artifact is left on disk: `delete_from_disk` never unlinks it. -/
theorem C7_code_bug :
    fsGet (processCommand envOffline ctxAlice fsAliceAll "delete profile").fs
      (cookiesPath "alice") = none ∧
    fsGet (processCommand envOffline ctxAlice fsAliceAll "delete profile").fs
      (profilePath "alice") = none ∧
    fsGet (processCommand envOffline ctxAlice fsAliceAll "delete profile").fs
      (proxiesPath "alice") = some (.jsonDict [("http", "http://proxy.local:8080")]) ∧
    dictGet (processCommand envOffline ctxAlice fsAliceAll "delete profile").ctx.profiles
      "alice" = none ∧
    (processCommand envOffline ctxAlice fsAliceAll "delete profile").ctx.active = none ∧
    (processCommand envOffline ctxAlice fsAliceAll "delete profile").exn = none := by
  refine ⟨by decide, by decide, by decide, by decide, by decide, by decide⟩

end Serket

